import Mathlib

/-!
Shallow embedding of `src/nbno.py` (NB digital-publication downloader):
filename sanitization, sampled colour analysis, brightness estimation,
tile-grid computation, page composition with partial-failure persistence,
resume-by-file-existence, and the per-page enhancement dispatch.

Modelling conventions: an image is its list of RGB pixels in the row-major
order of PIL `getdata`; Python float arithmetic is modelled as exact
rational arithmetic; a Python exception is modelled as an `Option`/`Except`
result; the filesystem content of a page's output path is an
`Option Canvas` (`none` = file absent).
-/

namespace NBNO

/-- An RGB pixel as produced by PIL `getdata` on an RGB image. -/
abbrev Pix := ℕ × ℕ × ℕ

/-- An image: its pixels in row-major `getdata` order. -/
abbrev Img := List Pix

/-! ## Settings (source lines 14–19) -/

/-- Source: `contrast_factor = 1.2`. -/
def contrast_factor : ℚ := 12 / 10

/-- Source: `baseline_brightness = 1.2`. -/
def baseline_brightness : ℚ := 12 / 10

/-- Source: `saturation_factor = 0.7`. -/
def saturation_factor : ℚ := 7 / 10

/-- Source: `target_white = 245`. -/
def target_white : ℚ := 245

/-- Source: `max_samples = 5000`. -/
def max_samples : ℕ := 5000

/-- Source: `color_threshold_pct = 0.4`. -/
def color_threshold_pct : ℚ := 2 / 5

/-! ## `sanitize_filename` (source lines 25–26)

`re.sub(r'[^\w\s\-\.æøåÆØÅ]', '', name).strip()`: every character outside
the kept class is deleted (not replaced), then Python `str.strip` removes
leading and trailing whitespace. -/

/-- Python regex `\w` (a word character), modelled on the Latin-1 range:
ASCII alphanumerics, the underscore, and the Latin-1 letters
U+00C0–U+00FF minus the two operators × (U+00D7) and ÷ (U+00F7). -/
def isPyWordChar (c : Char) : Bool :=
  c.isAlphanum || c == '_' ||
    (decide (0xC0 ≤ c.toNat) && decide (c.toNat ≤ 0xFF) &&
      !(c.toNat == 0xD7) && !(c.toNat == 0xF7))

/-- Python regex `\s` / `str.strip` whitespace (ASCII part). -/
def isPySpace (c : Char) : Bool :=
  c == ' ' || c == '\t' || c == '\n' || c == '\r' || c == '\x0B' || c == '\x0C'

/-- The character class kept by the substitution:
`[\w\s\-\.æøåÆØÅ]`. -/
def keepChar (c : Char) : Bool :=
  isPyWordChar c || isPySpace c || c == '-' || c == '.' ||
    c == 'æ' || c == 'ø' || c == 'å' || c == 'Æ' || c == 'Ø' || c == 'Å'

/-- Python `str.strip`: drop leading and trailing whitespace. -/
def pyStrip (l : List Char) : List Char :=
  ((l.dropWhile isPySpace).reverse.dropWhile isPySpace).reverse

/-- Source `sanitize_filename`: delete every character not in the kept
class, then strip surrounding whitespace. -/
def sanitize_filename (s : String) : String :=
  String.mk (pyStrip (s.data.filter keepChar))

/-! ## Sampled colour analysis (`color_percentage`, source lines 36–49) -/

/-- Distance between two natural channel values, `abs (r - g)` in Python. -/
def natDist (a b : ℕ) : ℕ := max a b - min a b

/-- The per-pixel colourfulness test of `color_percentage`:
`max(abs(r-g), abs(r-b), abs(g-b)) > 30 and max(r,g,b)-min(r,g,b) > 50`. -/
def isColorful (p : Pix) : Bool :=
  decide (30 < max (natDist p.1 p.2.1) (max (natDist p.1 p.2.2) (natDist p.2.1 p.2.2))) &&
    decide (50 < max p.1 (max p.2.1 p.2.2) - min p.1 (min p.2.1 p.2.2))

/-- The sampling stride both analyzers compute:
`max_samples_local = min(sample_pixels, len(pixels))` followed by
`step = len(pixels) // max_samples_local`, as a function of the pixel
count `n`. -/
def strideOf (n : ℕ) : ℕ := n / min max_samples n

/-- The loop of `color_percentage`: enumerate the pixels from index `i`,
skip every index with `i % step != 0`, and count the sampled pixels that
pass the colourfulness test. -/
def countColorFrom (step : ℕ) : ℕ → Img → ℕ
  | _, [] => 0
  | i, p :: rest =>
    (if i % step == 0 && isColorful p then 1 else 0) + countColorFrom step (i + 1) rest

/-- Source `color_percentage` (at its only call sites `sample_pixels`
keeps its default `max_samples`). On an image with zero pixels the
stride computation divides by zero (`ZeroDivisionError`), modelled as
`none`; otherwise the colourful-sample count divided by
`max_samples_local` is returned. -/
def color_percentage (pixels : Img) : Option ℚ :=
  if pixels.isEmpty then none
  else
    some ((countColorFrom (strideOf pixels.length) 0 pixels : ℚ) /
      ((min max_samples pixels.length : ℕ) : ℚ))

/-- The number of pixel indices an analyzer visits on an image of `n`
pixels with stride `step`: the indices `i < n` with `i % step == 0`. -/
def samples_taken (n step : ℕ) : ℕ :=
  ((List.range n).filter (fun i => i % step == 0)).length

/-! ## Brightness estimation (`auto_brightness_factor`, source lines 51–68) -/

/-- The luma `0.299*r + 0.587*g + 0.114*b` of a pixel, exactly. -/
def luma (p : Pix) : ℚ := (299 * p.1 + 587 * p.2.1 + 114 * p.2.2) / 1000

/-- The loop of `auto_brightness_factor`: enumerate the pixels from index
`i`, skip every index with `i % step != 0`, and keep the largest sampled
luma seen (accumulator `acc`, initially `0`). -/
def brightestFrom (step : ℕ) : ℕ → ℚ → Img → ℚ
  | _, acc, [] => acc
  | i, acc, p :: rest =>
    brightestFrom step (i + 1)
      (if i % step = 0 ∧ acc < luma p then luma p else acc) rest

/-- The maximum sampled luma of an image (the final value of `brightest`). -/
def maxLumaOf (pixels : Img) : ℚ :=
  brightestFrom (strideOf pixels.length) 0 0 pixels

/-- Source `auto_brightness_factor` (default `target_white = 245`,
default `sample_pixels = max_samples`). On an image with zero pixels the
stride computation divides by zero, modelled as `none`. If the maximum
sampled luma is `0` the factor is `1.0`; otherwise it is
`min(target_white / brightest, 2.0)`. -/
def auto_brightness_factor (pixels : Img) : Option ℚ :=
  if pixels.isEmpty then none
  else
    let brightest := maxLumaOf pixels
    if brightest = 0 then some 1
    else some (min (target_white / brightest) 2)

/-! ## PIL collaborator models and the enhancers (source lines 70–85)

The enhancement pipelines call into the external PIL library
(`Image.convert`, `ImageEnhance.Contrast/Brightness/Color`). PIL is an
external collaborator of the repository, so its primitives are modelled
here after their documented blend semantics; the repository's own code
(the pipelines and the dispatch) is translated from the source. -/

/-- Round a rational to the nearest channel value clamped to `0–255`. -/
def clamp255 (x : ℚ) : ℕ :=
  if x ≤ 0 then 0 else if 255 ≤ x then 255 else (⌊x + 1 / 2⌋).toNat

/-- Model of the external PIL grayscale conversion: the ITU-R 601-2 luma
`(299*r + 587*g + 114*b) // 1000`, truncated to an integer. -/
def toL (p : Pix) : ℕ := (299 * p.1 + 587 * p.2.1 + 114 * p.2.2) / 1000

/-- Model of the external PIL `convert("L")` followed by the later
re-expansion to RGB: every channel carries the pixel's luma. -/
def convertL (img : Img) : Img := img.map (fun p => let l := toL p; (l, l, l))

/-- Linear interpolation from `base` towards channel value `c` with
weight `f` (PIL `Image.blend` on one channel). -/
def blendC (base : ℚ) (c : ℕ) (f : ℚ) : ℚ := base + f * ((c : ℚ) - base)

/-- Model of the external PIL mean used by `ImageEnhance.Contrast`: the
rounded mean luma of the image (`0` on an empty image). -/
def meanL (img : Img) : ℚ :=
  if img.isEmpty then 0
  else ((⌊(img.map (fun p => (toL p : ℚ))).sum / (img.length : ℚ) + 1 / 2⌋ : ℤ) : ℚ)

/-- Model of the external PIL `ImageEnhance.Contrast(img).enhance(f)`:
blend every channel from the mean-luma gray image towards the original
with weight `f`. -/
def contrastEnhance (f : ℚ) (img : Img) : Img :=
  let m := meanL img
  img.map (fun p =>
    (clamp255 (blendC m p.1 f), clamp255 (blendC m p.2.1 f), clamp255 (blendC m p.2.2 f)))

/-- Model of the external PIL `ImageEnhance.Brightness(img).enhance(f)`:
scale every channel by `f`. -/
def brightnessEnhance (f : ℚ) (img : Img) : Img :=
  img.map (fun p =>
    (clamp255 (f * p.1), clamp255 (f * p.2.1), clamp255 (f * p.2.2)))

/-- Model of the external PIL `ImageEnhance.Color(img).enhance(f)`: blend
every pixel from its grayscale version towards the original with
weight `f`. -/
def colorEnhance (f : ℚ) (img : Img) : Img :=
  img.map (fun p =>
    let l : ℚ := (toL p : ℚ)
    (clamp255 (blendC l p.1 f), clamp255 (blendC l p.2.1 f), clamp255 (blendC l p.2.2 f)))

/-- Source `enhance_grayscale_auto`: convert to luminance, contrast-scale
by `contrast_factor`, compute the brightness factor on the RGB re-expansion,
multiply by `baseline_brightness`, cap at `2.0`, brightness-scale, and
return as RGB. `none` models the `ZeroDivisionError` on an empty image. -/
def enhance_grayscale_auto (image : Img) : Option Img :=
  let img := convertL image
  let img2 := contrastEnhance contrast_factor img
  (auto_brightness_factor img2).map (fun f0 =>
    brightnessEnhance (min (f0 * baseline_brightness) 2) img2)

/-- Source `enhance_color_auto`: contrast-scale the RGB image by
`contrast_factor`, compute the brightness factor, multiply by
`baseline_brightness`, cap at `2.0`, brightness-scale, then
saturation-scale by `saturation_factor`. -/
def enhance_color_auto (image : Img) : Option Img :=
  let img2 := contrastEnhance contrast_factor image
  (auto_brightness_factor img2).map (fun f0 =>
    colorEnhance saturation_factor
      (brightnessEnhance (min (f0 * baseline_brightness) 2) img2))

/-- The per-image enhancement dispatch of `main` (source lines 261–269):
if the colour fraction reaches `color_threshold_pct` the image passes
through unchanged (`img.copy()`); otherwise exactly one of the two
enhancers runs, chosen by the run-wide `use_grayscale` flag. -/
def process_image (use_grayscale : Bool) (img : Img) : Option Img :=
  match color_percentage img with
  | none => none
  | some p =>
    if color_threshold_pct ≤ p then some img
    else if use_grayscale then enhance_grayscale_auto img
    else enhance_color_auto img

/-! ## Tile grid (source lines 109–113 and 143–148) -/

/-- Source `Book.set_tile_sizes`: `1024×1024` for `digibok` and
`digitidsskrift`, `4096×4096` otherwise. -/
def set_tile_sizes (media_type : String) : ℕ × ℕ :=
  if media_type == "digibok" || media_type == "digitidsskrift" then (1024, 1024)
  else (4096, 4096)

/-- Source `Book.page_grid`: `(ceil(w / tile_width), ceil(h / tile_height))`.
The Python float division plus `math.ceil` is embedded as the exact
natural ceiling division `(w + tw - 1) / tw`. -/
def page_grid (tw th w h : ℕ) : ℕ × ℕ :=
  ((w + tw - 1) / tw, (h + th - 1) / th)

/-- Modelled from the spec: the validating grid computation the spec
describes ("both dimensions must be positive integers or the call fails
with `InvalidGeometry`") — absent from the source, stated here only to be
compared with the source's `page_grid`. -/
inductive GridError
  | invalidGeometry
deriving DecidableEq

/-- Modelled from the spec: `computeGrid` with the spec's
`InvalidGeometry` failure on non-positive page dimensions. -/
def page_gridSpec (tw th w h : ℕ) : Except GridError (ℕ × ℕ) :=
  if 0 < w ∧ 0 < h then Except.ok (page_grid tw th w h)
  else Except.error GridError.invalidGeometry

instance : DecidableEq (Except GridError (ℕ × ℕ)) := fun
  | Except.ok a, Except.ok b =>
    if h : a = b then isTrue (by rw [h])
    else isFalse (by intro he; injection he with h2; exact h h2)
  | Except.ok _, Except.error _ => isFalse (by simp)
  | Except.error _, Except.ok _ => isFalse (by simp)
  | Except.error e, Except.error f =>
    if h : e = f then isTrue (by rw [h])
    else isFalse (by intro he; injection he with h2; exact h h2)

/-! ## Page composition (`download_page`, source lines 162–183) -/

/-- A fetched tile (its decoded content, abstracted). -/
abbrev Tile := ℕ

/-- The canvas of a page: the pastes performed on it, in order — each a
paste of a tile at pixel offset `(x, y)`. -/
abbrev Canvas := List (ℕ × ℕ × Tile)

/-- A tile-level failure: the HTTP error raised by `raise_for_status`, or
a decode error from `Image.open`/`load`. -/
inductive DLErr
  | tileFetchFailed
  | tileDecodeFailed
deriving DecidableEq

/-- The observable outcome of one `download_page` call: the content of
the output path afterwards, the number of tile fetches performed, and the
returned value (`ok` = the output path) or the propagated exception. -/
instance : DecidableEq (Except DLErr Unit) := fun
  | Except.ok (), Except.ok () => isTrue rfl
  | Except.ok (), Except.error _ => isFalse (by simp)
  | Except.error _, Except.ok () => isFalse (by simp)
  | Except.error e, Except.error f =>
    if h : e = f then isTrue (by rw [h]) else isFalse (by simp [h])

structure DLResult where
  file : Option Canvas
  fetches : ℕ
  outcome : Except DLErr Unit
deriving DecidableEq

/-- The nested tile loop of `download_page` over the row-major coordinate
list: fetch each `(row, col)`, paste at `(col*tw, row*th)`; the first
failure aborts the remaining fetches. Returns the pastes performed, the
number of fetches (the failed one included), and the error if any. -/
def composeLoop (fetch : ℕ → ℕ → Except DLErr Tile) (tw th : ℕ) :
    List (ℕ × ℕ) → Canvas × ℕ × Option DLErr
  | [] => ([], 0, none)
  | rc :: rest =>
    match fetch rc.1 rc.2 with
    | Except.error e => ([], 1, some e)
    | Except.ok t =>
      let r := composeLoop fetch tw th rest
      ((rc.2 * tw, rc.1 * th, t) :: r.1, r.2.1 + 1, r.2.2)

/-- Row-major traversal of the grid:
`for row in range(max_row): for col in range(max_col)`. -/
def rowMajor (rows cols : ℕ) : List (ℕ × ℕ) :=
  (List.range rows).flatMap (fun r => (List.range cols).map (fun c => (r, c)))

/-- The pastes obtained from the successful fetches of a coordinate list. -/
def pastesOf (fetch : ℕ → ℕ → Except DLErr Tile) (tw th : ℕ)
    (coords : List (ℕ × ℕ)) : Canvas :=
  coords.filterMap (fun rc =>
    (fetch rc.1 rc.2).toOption.map (fun t => (rc.2 * tw, rc.1 * th, t)))

/-- Source `download_page`. `file0` is the content of `out_path` before
the call (`none` = absent). If the file exists the call returns at once
(zero fetches, file untouched). Otherwise the tile loop runs inside
`try`/`finally`: whatever was pasted is saved to `out_path`
unconditionally, and an error from the loop is then re-raised. -/
def download_page (file0 : Option Canvas) (media_type : String) (w h : ℕ)
    (fetch : ℕ → ℕ → Except DLErr Tile) : DLResult :=
  match file0 with
  | some c => ⟨some c, 0, Except.ok ()⟩
  | none =>
    let ts := set_tile_sizes media_type
    let g := page_grid ts.1 ts.2 w h
    let r := composeLoop fetch ts.1 ts.2 (rowMajor g.2 g.1)
    ⟨some r.1, r.2.1,
      match r.2.2 with
      | none => Except.ok ()
      | some e => Except.error e⟩

/-! ## Helper lemmas -/

lemma ceil_div_cover (w t : ℕ) (ht : 0 < t) : w ≤ ((w + t - 1) / t) * t := by
  have hdm := Nat.div_add_mod (w + t - 1) t
  have hrt : (w + t - 1) % t < t := Nat.mod_lt _ ht
  have hcomm : ((w + t - 1) / t) * t = t * ((w + t - 1) / t) := Nat.mul_comm _ _
  omega

lemma ceil_div_lt (w t : ℕ) (ht : 0 < t) : ((w + t - 1) / t) * t < w + t := by
  have hdm := Nat.div_add_mod (w + t - 1) t
  have hrt : (w + t - 1) % t < t := Nat.mod_lt _ ht
  have hcomm : ((w + t - 1) / t) * t = t * ((w + t - 1) / t) := Nat.mul_comm _ _
  omega

lemma ceil_nat_div (w t : ℕ) (ht : 0 < t) :
    (((w + t - 1) / t : ℕ) : ℤ) = ⌈(w : ℚ) / (t : ℚ)⌉ := by
  set q := (w + t - 1) / t with hq
  have h1 : w ≤ q * t := ceil_div_cover w t ht
  have h2 : q * t < w + t := ceil_div_lt w t ht
  have htq : (0 : ℚ) < (t : ℚ) := by exact_mod_cast ht
  have h1q : (w : ℚ) ≤ (q : ℚ) * (t : ℚ) := by exact_mod_cast h1
  have h2q : (q : ℚ) * (t : ℚ) < (w : ℚ) + (t : ℚ) := by exact_mod_cast h2
  symm
  rw [Int.ceil_eq_iff]
  constructor
  · rw [lt_div_iff₀ htq]
    push_cast
    linarith
  · rw [div_le_iff₀ htq]
    push_cast
    linarith

lemma composeLoop_pos (fetch : ℕ → ℕ → Except DLErr Tile) (tw th : ℕ) :
    ∀ coords : List (ℕ × ℕ), coords ≠ [] →
      1 ≤ (composeLoop fetch tw th coords).2.1 := by
  intro coords hne
  match coords with
  | [] => exact absurd rfl hne
  | rc :: rest =>
    simp only [composeLoop]
    match fetch rc.1 rc.2 with
    | Except.error e => exact Nat.le_refl 1
    | Except.ok t => exact Nat.le_add_left 1 _

lemma composeLoop_first_error (fetch : ℕ → ℕ → Except DLErr Tile) (tw th : ℕ) (e : DLErr) :
    ∀ (pre : List (ℕ × ℕ)) (rc : ℕ × ℕ) (post : List (ℕ × ℕ)),
      (∀ x ∈ pre, ∃ t, fetch x.1 x.2 = Except.ok t) →
      fetch rc.1 rc.2 = Except.error e →
      composeLoop fetch tw th (pre ++ rc :: post) =
        (pastesOf fetch tw th pre, pre.length + 1, some e) := by
  intro pre
  induction pre with
  | nil =>
    intro rc post _ hrc
    simp [composeLoop, pastesOf, hrc]
  | cons x pre' ih =>
    intro rc post hpre hrc
    obtain ⟨t, ht⟩ := hpre x (List.mem_cons_self x pre')
    have ih' := ih rc post (fun y hy => hpre y (List.mem_cons_of_mem x hy)) hrc
    simp [composeLoop, pastesOf, ht, Except.toOption, ih']

/-! ## Claim theorems -/

/-- Claim C9 counterexample: `sanitize_filename` applied to
`"Børre's Journal/Vol. 2?"` does not return `"Børres Journal Vol. 2"`:
the deleted slash is not replaced by a space, so the neighbours join. -/
theorem sanitize_filename_cex :
    sanitize_filename "Børre's Journal/Vol. 2?" ≠ "Børres Journal Vol. 2" := by
  decide

/-- Claim C9 (amended): `sanitize_filename "Børre's Journal/Vol. 2?"`
returns `"Børres JournalVol. 2"` — the apostrophe, slash and question
mark are deleted (without replacement), while letters, digits, spaces,
hyphens, dots and æøåÆØÅ are retained. -/
theorem sanitize_filename_example :
    sanitize_filename "Børre's Journal/Vol. 2?" = "Børres JournalVol. 2" := by
  decide

/-- Claim C8 counterexample: at page width `0` (a non-positive
dimension), the source's `page_grid` succeeds and returns the grid
`(0, 1)` instead of failing; the spec-modelled validating variant fails
with `InvalidGeometry` there, so the source does not implement the
claimed check. -/
theorem page_grid_cex :
    page_grid 1024 1024 0 7 = (0, 1) ∧
    page_gridSpec 1024 1024 0 7 = Except.error GridError.invalidGeometry := by
  decide

/-- Claim C8 (amended): `page_grid` performs no validation and never
fails: for positive tile sizes it always returns
`(⌈w/tw⌉, ⌈h/th⌉)`; for positive page dimensions the grid counts are
positive, and a zero dimension silently yields a zero count rather than
an `InvalidGeometry` error. -/
theorem page_grid_no_validation (w h tw th : ℕ) (htw : 0 < tw) (hth : 0 < th) :
    (0 < w → 0 < (page_grid tw th w h).1) ∧
    (0 < h → 0 < (page_grid tw th w h).2) ∧
    (w = 0 → (page_grid tw th w h).1 = 0) ∧
    (h = 0 → (page_grid tw th w h).2 = 0) := by
  refine ⟨fun hw => ?_, fun hh => ?_, fun hw => ?_, fun hh => ?_⟩
  · show 0 < (w + tw - 1) / tw
    exact (Nat.one_le_div_iff htw).mpr (by omega)
  · show 0 < (h + th - 1) / th
    exact (Nat.one_le_div_iff hth).mpr (by omega)
  · show (w + tw - 1) / tw = 0
    subst hw
    exact Nat.div_eq_of_lt (by omega)
  · show (h + th - 1) / th = 0
    subst hh
    exact Nat.div_eq_of_lt (by omega)

theorem page_grid_no_validation_witness :
    (0 < 5 → 0 < (page_grid 1024 1024 5 0).1) ∧
    (0 < 0 → 0 < (page_grid 1024 1024 5 0).2) ∧
    (5 = 0 → (page_grid 1024 1024 5 0).1 = 0) ∧
    (0 = 0 → (page_grid 1024 1024 5 0).2 = 0) :=
  page_grid_no_validation 5 0 1024 1024 (by decide) (by decide)

/-- Claim C4: `download_page` is idempotent at the page level: if the
output file already exists (with any content), the call performs zero
tile fetches, leaves the file unchanged, and returns the existing output
path; composing the page again on the resulting file state yields the
identical file. -/
theorem download_page_idempotent (media : String) (w h : ℕ)
    (fetch : ℕ → ℕ → Except DLErr Tile) (c : Canvas) :
    download_page (some c) media w h fetch = ⟨some c, 0, Except.ok ()⟩ ∧
    (download_page (download_page (some c) media w h fetch).file media w h fetch).file
      = some c :=
  ⟨rfl, rfl⟩

/-- The fetcher of the C2 scenario: the tile in column 0 succeeds, every
other tile fails. -/
def cfetch : ℕ → ℕ → Except DLErr Tile := fun _ c =>
  if c = 0 then Except.ok 9 else Except.error DLErr.tileFetchFailed

/-- Claim C2 counterexample: a `digibok` page of 2048×1024 pixels (grid
1×2) whose second tile fetch fails. The failed first run persists the
partial one-tile canvas, so the output file exists afterwards; the
subsequent run's resume/skip check then treats the page as done and
performs zero fetches instead of re-downloading it. -/
theorem resume_skip_cex :
    download_page none "digibok" 2048 1024 cfetch =
      ⟨some [(0, 0, 9)], 2, Except.error DLErr.tileFetchFailed⟩ ∧
    download_page (some [(0, 0, 9)]) "digibok" 2048 1024 cfetch =
      ⟨some [(0, 0, 9)], 0, Except.ok ()⟩ := by
  decide

/-- Claim C2 (amended): the resume/skip check is file existence only: a
page whose output file is absent is re-downloaded (the composition runs
and performs at least one tile fetch whenever the grid is nonempty), but
a failed attempt always saves its partial canvas, so the output file
exists and a subsequent run treats the page as done and skips it
unchanged. -/
theorem resume_check_file_existence :
    (∀ (media : String) (w h : ℕ) (fetch : ℕ → ℕ → Except DLErr Tile) (c : Canvas),
      download_page (some c) media w h fetch = ⟨some c, 0, Except.ok ()⟩) ∧
    (∀ (media : String) (w h : ℕ) (fetch : ℕ → ℕ → Except DLErr Tile),
      rowMajor (page_grid (set_tile_sizes media).1 (set_tile_sizes media).2 w h).2
          (page_grid (set_tile_sizes media).1 (set_tile_sizes media).2 w h).1 ≠ [] →
      1 ≤ (download_page none media w h fetch).fetches) := by
  constructor
  · intro media w h fetch c
    rfl
  · intro media w h fetch hne
    exact composeLoop_pos fetch _ _ _ hne

theorem resume_check_file_existence_witness :
    download_page (some [(0, 0, 9)]) "digibok" 2048 1024 cfetch =
      ⟨some [(0, 0, 9)], 0, Except.ok ()⟩ ∧
    1 ≤ (download_page none "digibok" 2048 1024 cfetch).fetches :=
  ⟨resume_check_file_existence.1 "digibok" 2048 1024 cfetch [(0, 0, 9)],
    resume_check_file_existence.2 "digibok" 2048 1024 cfetch (by decide)⟩

/-- Claim C1: if, with the output file absent, the tile loop's fetches
succeed on a row-major prefix `pre` and the next fetch (or decode) fails,
then `download_page` performs exactly `pre.length + 1` fetches (none
beyond the failing one), saves to the output path the canvas holding
exactly the tiles pasted so far, and propagates the error to the
caller. -/
theorem download_page_partial_failure (media : String) (w h : ℕ)
    (fetch : ℕ → ℕ → Except DLErr Tile) (pre post : List (ℕ × ℕ)) (rc : ℕ × ℕ)
    (e : DLErr)
    (hsplit : rowMajor (page_grid (set_tile_sizes media).1 (set_tile_sizes media).2 w h).2
        (page_grid (set_tile_sizes media).1 (set_tile_sizes media).2 w h).1 =
        pre ++ rc :: post)
    (hpre : ∀ x ∈ pre, ∃ t, fetch x.1 x.2 = Except.ok t)
    (hrc : fetch rc.1 rc.2 = Except.error e) :
    download_page none media w h fetch =
      ⟨some (pastesOf fetch (set_tile_sizes media).1 (set_tile_sizes media).2 pre),
        pre.length + 1, Except.error e⟩ := by
  simp only [download_page, hsplit,
    composeLoop_first_error fetch _ _ e pre rc post hpre hrc]

/-- The fetcher of the C1 witness scenario: the tile in column 0
succeeds, every other tile fails to decode. -/
def wfetch : ℕ → ℕ → Except DLErr Tile := fun _ c =>
  if c = 0 then Except.ok 5 else Except.error DLErr.tileDecodeFailed

theorem download_page_partial_failure_witness :
    download_page none "digibok" 2048 1024 wfetch =
      ⟨some (pastesOf wfetch (set_tile_sizes "digibok").1 (set_tile_sizes "digibok").2
          [(0, 0)]),
        [(0, 0)].length + 1, Except.error DLErr.tileDecodeFailed⟩ :=
  download_page_partial_failure "digibok" 2048 1024 wfetch [(0, 0)] [] (0, 1)
    DLErr.tileDecodeFailed (by decide)
    (fun x hx => by
      rw [List.mem_singleton] at hx
      subst hx
      exact ⟨5, rfl⟩)
    rfl

/-- Claim C3: for positive page and tile dimensions, `page_grid` returns
`columns = ⌈pageWidth/tileWidth⌉` and `rows = ⌈pageHeight/tileHeight⌉`,
and the grid covers the page: `columns·tileWidth ≥ pageWidth` and
`rows·tileHeight ≥ pageHeight`. -/
theorem page_grid_ceil (w h tw th : ℕ) (_hw : 0 < w) (_hh : 0 < h)
    (htw : 0 < tw) (hth : 0 < th) :
    (((page_grid tw th w h).1 : ℤ) = ⌈(w : ℚ) / (tw : ℚ)⌉ ∧
      ((page_grid tw th w h).2 : ℤ) = ⌈(h : ℚ) / (th : ℚ)⌉) ∧
    w ≤ (page_grid tw th w h).1 * tw ∧ h ≤ (page_grid tw th w h).2 * th :=
  ⟨⟨ceil_nat_div w tw htw, ceil_nat_div h th hth⟩,
    ceil_div_cover w tw htw, ceil_div_cover h th hth⟩

theorem page_grid_ceil_witness :
    (((page_grid 1024 1024 2000 1500).1 : ℤ) = ⌈((2000 : ℕ) : ℚ) / ((1024 : ℕ) : ℚ)⌉ ∧
      ((page_grid 1024 1024 2000 1500).2 : ℤ) = ⌈((1500 : ℕ) : ℚ) / ((1024 : ℕ) : ℚ)⌉) ∧
    2000 ≤ (page_grid 1024 1024 2000 1500).1 * 1024 ∧
    1500 ≤ (page_grid 1024 1024 2000 1500).2 * 1024 :=
  page_grid_ceil 2000 1500 1024 1024 (by decide) (by decide) (by decide) (by decide)

/-! ## Lemmas for the sampling claims -/

lemma stride_eq_claim_formula (n : ℕ) (hn : 0 < n) :
    strideOf n = max (n / max_samples) 1 := by
  simp only [strideOf, max_samples]
  rcases le_or_lt 5000 n with h | h
  · rw [min_eq_left h]
    exact (max_eq_left ((Nat.one_le_div_iff (by norm_num)).mpr h)).symm
  · rw [min_eq_right (le_of_lt h), Nat.div_self hn, Nat.div_eq_of_lt h]
    rfl

lemma countColorFrom_eq_countP (step : ℕ) :
    ∀ (l : Img) (i : ℕ),
      countColorFrom step i l =
        ((l.enumFrom i).filter (fun ip => ip.1 % step == 0)).countP
          (fun ip => isColorful ip.2) := by
  intro l
  induction l with
  | nil => intro i; rfl
  | cons p rest ih =>
    intro i
    rw [countColorFrom, List.enumFrom_cons, List.filter_cons]
    cases h1 : (i % step == 0) with
    | false => simp [h1, ih]
    | true =>
      cases h2 : isColorful p with
      | false => simp [h1, h2, List.countP_cons, ih, Nat.add_comm]
      | true => simp [h1, h2, List.countP_cons, ih, Nat.add_comm]

lemma countColorFrom_replicate_red (n : ℕ) :
    ∀ i : ℕ, countColorFrom 1 i (List.replicate n (255, 0, 0)) = n := by
  induction n with
  | zero => intro i; rfl
  | succ k ih =>
    intro i
    have hcol : isColorful (255, 0, 0) = true := by decide
    rw [List.replicate_succ, countColorFrom, ih]
    simp only [Nat.mod_one, hcol]
    norm_num [Nat.add_comm]

lemma samples_taken_stride_one (n : ℕ) : samples_taken n 1 = n := by
  simp [samples_taken, Nat.mod_one]

/-- An all-red image of 5001 pixels: large enough that the stride is
`1`, so every pixel is sampled. -/
def redImg : Img := List.replicate 5001 (255, 0, 0)

/-- Claim C5 counterexample: on the 5001-pixel all-red image, the stride
is `1`, so `color_percentage` samples all `5001 > 5000` pixels, and the
value it returns (`5001/5000`) differs from the number of colourful
samples divided by the number of samples actually taken (`5001/5001`):
the source divides by `min(5000, totalPixels)` instead. -/
theorem color_percentage_cex :
    5000 < samples_taken redImg.length (strideOf redImg.length) ∧
    color_percentage redImg = some (5001 / 5000) ∧
    ((5001 : ℚ) / 5000) ≠
      ((countColorFrom (strideOf redImg.length) 0 redImg : ℚ) /
        (samples_taken redImg.length (strideOf redImg.length) : ℚ)) := by
  have hlen : redImg.length = 5001 := List.length_replicate 5001 _
  have hstride1 : strideOf 5001 = 1 := by norm_num [strideOf, max_samples]
  have hstride : strideOf redImg.length = 1 := by rw [hlen, hstride1]
  have hcount : countColorFrom (strideOf redImg.length) 0 redImg = 5001 := by
    rw [hstride]
    exact countColorFrom_replicate_red 5001 0
  refine ⟨?_, ?_, ?_⟩
  · rw [hstride, hlen, samples_taken_stride_one]
    norm_num
  · have h1 : redImg.isEmpty = false := rfl
    have hcount1 : countColorFrom 1 0 redImg = 5001 := countColorFrom_replicate_red 5001 0
    simp only [color_percentage, h1, Bool.false_eq_true, if_false, hlen, hstride1, hcount1]
    norm_num [max_samples]
  · rw [hcount, hstride, hlen, samples_taken_stride_one]
    norm_num

/-- Claim C5 (amended): for every nonempty image, the stride is
`max(⌊totalPixels/5000⌋, 1)` exactly as claimed, and the loop visits
exactly the pixel indices `i` with `i % stride == 0`; but the value
returned is the number of colourful samples divided by
`min(5000, totalPixels)` — not by the number of samples actually taken,
which can exceed 5000. -/
theorem color_percentage_amended (pixels : Img) (h : pixels ≠ []) :
    strideOf pixels.length = max (pixels.length / max_samples) 1 ∧
    color_percentage pixels =
      some (((((pixels.enumFrom 0).filter
            (fun ip => ip.1 % strideOf pixels.length == 0)).countP
            (fun ip => isColorful ip.2) : ℕ) : ℚ) /
        ((min max_samples pixels.length : ℕ) : ℚ)) := by
  have hn : 0 < pixels.length := List.length_pos.mpr h
  refine ⟨stride_eq_claim_formula pixels.length hn, ?_⟩
  have hne : pixels.isEmpty = false := by
    cases pixels with
    | nil => exact absurd rfl h
    | cons a l => rfl
  simp only [color_percentage, hne, Bool.false_eq_true, if_false,
    countColorFrom_eq_countP]

theorem color_percentage_amended_witness :
    strideOf ([(255, 255, 255), (0, 0, 0)] : Img).length =
      max (([(255, 255, 255), (0, 0, 0)] : Img).length / max_samples) 1 ∧
    color_percentage [(255, 255, 255), (0, 0, 0)] =
      some (((((([(255, 255, 255), (0, 0, 0)] : Img).enumFrom 0).filter
            (fun ip => ip.1 % strideOf ([(255, 255, 255), (0, 0, 0)] : Img).length == 0)).countP
            (fun ip => isColorful ip.2) : ℕ) : ℚ) /
        ((min max_samples ([(255, 255, 255), (0, 0, 0)] : Img).length : ℕ) : ℚ)) :=
  color_percentage_amended [(255, 255, 255), (0, 0, 0)] (by decide)

/-- Claim C6 counterexample: on a one-pixel image of maximum sampled
luma `490`, the brightness factor is `min(245/490, 2) = 1/2`, not `2.0`:
the `2.0` cap engages for small maximum luma, not for large. -/
theorem auto_brightness_factor_cex :
    (490 : ℚ) ≤ maxLumaOf [(490, 490, 490)] ∧
    auto_brightness_factor [(490, 490, 490)] ≠ some 2 ∧
    auto_brightness_factor [(490, 490, 490)] = some (1 / 2) := by
  have hml : maxLumaOf [(490, 490, 490)] = 490 := by
    norm_num [maxLumaOf, brightestFrom, strideOf, max_samples, luma]
  have habf : auto_brightness_factor [(490, 490, 490)] = some (1 / 2) := by
    norm_num [auto_brightness_factor, hml, target_white]
  refine ⟨le_of_eq hml.symm, ?_, habf⟩
  rw [habf]
  intro hcontra
  have : (1 / 2 : ℚ) = 2 := Option.some.inj hcontra
  norm_num at this

/-- Claim C6 (amended): for every nonempty image,
`auto_brightness_factor` returns `1.0` when the maximum sampled luma is
`0` and `min(245/maxLuma, 2.0)` otherwise; for maximum sampled luma in
`(0, 245]` the factor is in `[1, 2]`; and the `2.0` cap engages exactly
on dim images — whenever `0 < maxLuma ≤ 245/2` the factor equals
`2.0` (for `maxLuma ≥ 490` the factor is at most `1/2`, not `2.0`). -/
theorem auto_brightness_factor_amended (pixels : Img) (h : pixels ≠ []) :
    (maxLumaOf pixels = 0 → auto_brightness_factor pixels = some 1) ∧
    (maxLumaOf pixels ≠ 0 →
      auto_brightness_factor pixels =
        some (min (target_white / maxLumaOf pixels) 2)) ∧
    (0 < maxLumaOf pixels → maxLumaOf pixels ≤ 245 →
      ∃ f, auto_brightness_factor pixels = some f ∧ 1 ≤ f ∧ f ≤ 2) ∧
    (0 < maxLumaOf pixels → maxLumaOf pixels ≤ 245 / 2 →
      auto_brightness_factor pixels = some 2) := by
  have hne : pixels.isEmpty = false := by
    cases pixels with
    | nil => exact absurd rfl h
    | cons a l => rfl
  refine ⟨fun h0 => ?_, fun h0 => ?_, fun hpos hle => ?_, fun hpos hle => ?_⟩
  · simp [auto_brightness_factor, hne, h0]
  · simp [auto_brightness_factor, hne, h0]
  · refine ⟨min (target_white / maxLumaOf pixels) 2, ?_, ?_, min_le_right _ _⟩
    · simp [auto_brightness_factor, hne, ne_of_gt hpos]
    · refine le_min ?_ (by norm_num)
      rw [target_white, le_div_iff₀ hpos]
      linarith
  · have h2 : (2 : ℚ) ≤ target_white / maxLumaOf pixels := by
      rw [target_white, le_div_iff₀ hpos]
      linarith
    simp [auto_brightness_factor, hne, ne_of_gt hpos, min_eq_right h2]

theorem auto_brightness_factor_amended_witness :
    (maxLumaOf [(100, 100, 100)] = 0 →
      auto_brightness_factor [(100, 100, 100)] = some 1) ∧
    (maxLumaOf [(100, 100, 100)] ≠ 0 →
      auto_brightness_factor [(100, 100, 100)] =
        some (min (target_white / maxLumaOf [(100, 100, 100)]) 2)) ∧
    (0 < maxLumaOf [(100, 100, 100)] → maxLumaOf [(100, 100, 100)] ≤ 245 →
      ∃ f, auto_brightness_factor [(100, 100, 100)] = some f ∧ 1 ≤ f ∧ f ≤ 2) ∧
    (0 < maxLumaOf [(100, 100, 100)] → maxLumaOf [(100, 100, 100)] ≤ 245 / 2 →
      auto_brightness_factor [(100, 100, 100)] = some 2) :=
  auto_brightness_factor_amended [(100, 100, 100)] (by decide)

/-- Claim C7: for every image whose colour analysis succeeds, the
enhancement pass leaves it unchanged when the colour fraction reaches
the `0.4` threshold, and otherwise applies exactly one of
`enhance_grayscale_auto` or `enhance_color_auto`, chosen by the
run-wide grayscale flag. -/
theorem process_image_dispatch (g : Bool) (img : Img) (p : ℚ)
    (hp : color_percentage img = some p) :
    (color_threshold_pct ≤ p → process_image g img = some img) ∧
    (p < color_threshold_pct →
      process_image g img =
        if g then enhance_grayscale_auto img else enhance_color_auto img) := by
  constructor
  · intro hle
    simp [process_image, hp, hle]
  · intro hlt
    simp [process_image, hp, not_le.mpr hlt]

theorem process_image_dispatch_witness :
    color_percentage [(0, 0, 0)] = some 0 ∧
    process_image true [(0, 0, 0)] = enhance_grayscale_auto [(0, 0, 0)] := by
  have hc : color_percentage [(0, 0, 0)] = some 0 := by
    norm_num [color_percentage, countColorFrom, strideOf, max_samples, isColorful, natDist]
  refine ⟨hc, ?_⟩
  have h := (process_image_dispatch true [(0, 0, 0)] 0 hc).2
    (by norm_num [color_threshold_pct])
  simpa using h

/-- Claim C10: on every image with at least one pixel the shared
sampling stride is at least `1` and both `color_percentage` and
`auto_brightness_factor` return a value without dividing by zero; the
zero-division branch is reached exactly on the zero-pixel image. -/
theorem analyzers_no_div_by_zero :
    (∀ pixels : Img, pixels ≠ [] →
      1 ≤ strideOf pixels.length ∧ (color_percentage pixels).isSome ∧
        (auto_brightness_factor pixels).isSome) ∧
    color_percentage [] = none ∧ auto_brightness_factor [] = none := by
  refine ⟨fun pixels h => ?_, rfl, rfl⟩
  have hn : 0 < pixels.length := List.length_pos.mpr h
  have hne : pixels.isEmpty = false := by
    cases pixels with
    | nil => exact absurd rfl h
    | cons a l => rfl
  refine ⟨?_, ?_, ?_⟩
  · simp only [strideOf]
    rw [Nat.one_le_div_iff (lt_min_iff.mpr ⟨by norm_num [max_samples], hn⟩)]
    exact min_le_right _ _
  · simp [color_percentage, hne]
  · simp only [auto_brightness_factor, hne, Bool.false_eq_true, if_false]
    split
    · rfl
    · rfl

theorem analyzers_no_div_by_zero_witness :
    1 ≤ strideOf ([(0, 0, 0)] : Img).length ∧
    (color_percentage [(0, 0, 0)]).isSome ∧
    (auto_brightness_factor [(0, 0, 0)]).isSome :=
  analyzers_no_div_by_zero.1 [(0, 0, 0)] (by decide)

end NBNO
